import Mathlib

/-!
Verification of the error-classification and process-execution subsystem of
the vscode-jupyter repository excerpt (`src/client/common/errors/types.ts`
and `src/client/common/process/types.ts`).

The TypeScript error hierarchy is embedded as an inductive type of runtime
error values.  Each concrete class constructor of the source is embedded as
a Lean function building such a value; `instanceof` tests become Boolean
discriminators on the inductive.  Machine-level details that the claims do
not touch (property ordering, prototype chains) are not modelled; object
identity is modelled by structural equality, which is adequate because all
relevant fields are `readonly` in the source.
-/

/-- The `ErrorCategory` string-literal union type
(`src/client/common/errors/types.ts`, lines 76-95).  Note that the union has
NINETEEN members: besides the seventeen categories in active use it retains
`kernelspecnotfound` and `unsupportedKernelSpec`, both marked in the source
as "Left for historical purposes, not used anymore". -/
inductive ErrorCategory where
  | cancelled
  | timeout
  | daemon
  | zmq
  | debugger
  | kerneldied
  | kernelpromisetimeout
  | jupytersession
  | jupyterconnection
  | jupyterinstall
  | jupyterselfcert
  | invalidkernel
  | noipykernel
  | fetcherror
  | notinstalled
  | kernelspecnotfound
  | unsupportedKernelSpec
  | sessionDisposed
  | unknown
  deriving DecidableEq, Repr

/-- Stand-in for the external `KernelConnectionMetadata` type imported from
`kernels/types` (not part of this excerpt; its structure is irrelevant to
every claim, only its presence as a payload field matters). -/
structure KernelConnectionMetadata where
  id : String
  deriving DecidableEq, Repr

/-- A JavaScript error value of this program, as a runtime object layout.

Constructors correspond to the classes of the hierarchy rooted at `Error`:
`plain` is an `Error` that is not a `BaseError`; the remaining constructors
are the `BaseError` subclasses visible in the excerpt (`StdErrError`,
`JupyterInstallError`, `WrappedError`, `WrappedKernelError`) plus
`otherBase`, which stands for an instance of any other concrete subclass of
the abstract class `BaseError` — such a subclass stores whatever
`ErrorCategory` it passes to `super(category, message)`.

Each constructor stores the fields the object carries at runtime: the
`category` field written by `BaseError`'s constructor, the `message` and
`stack` of `Error`, and `originalException` for the wrapped classes. -/
inductive JSError where
  | plain (message : String) (stack : String)
  | stdErr (category : ErrorCategory) (message : String) (stack : String)
  | jupyterInstall (category : ErrorCategory) (message : String) (stack : String)
  | wrapped (category : ErrorCategory) (message : String)
      (originalException : Option JSError) (stack : String)
  | wrappedKernel (category : ErrorCategory) (message : String)
      (originalException : Option JSError) (stack : String)
      (kernelConnectionMetadata : KernelConnectionMetadata)
  | otherBase (category : ErrorCategory) (message : String) (stack : String)

namespace JSError

/-- The `instanceof BaseError` test: every constructor except `plain`
builds an instance of a `BaseError` subclass. -/
def isBaseError : JSError → Bool
  | .plain _ _ => false
  | _ => true

/-- The `instanceof WrappedError` test: `WrappedKernelError extends
WrappedError`, so both constructors pass it. -/
def isWrappedError : JSError → Bool
  | .wrapped _ _ _ _ => true
  | .wrappedKernel _ _ _ _ _ => true
  | _ => false

/-- The `category` property read.  A `plain` error has no such property
(reading it yields `undefined`); the value returned for it here is never
consulted, because every read of `category` in the source is guarded by an
`instanceof BaseError` check. -/
def category : JSError → ErrorCategory
  | .plain _ _ => .unknown
  | .stdErr c _ _ => c
  | .jupyterInstall c _ _ => c
  | .wrapped c _ _ _ => c
  | .wrappedKernel c _ _ _ _ => c
  | .otherBase c _ _ => c

/-- The `originalException` property read: only the wrapped classes carry
it (`undefined`, i.e. `none`, on every other object). -/
def originalException : JSError → Option JSError
  | .wrapped _ _ o _ => o
  | .wrappedKernel _ _ o _ _ => o
  | _ => none

/-- The `stack` property read. -/
def stack : JSError → String
  | .plain _ st => st
  | .stdErr _ _ st => st
  | .jupyterInstall _ _ st => st
  | .wrapped _ _ _ st => st
  | .wrappedKernel _ _ _ st _ => st
  | .otherBase _ _ st => st

/-- The `message` property read. -/
def message : JSError → String
  | .plain m _ => m
  | .stdErr _ m _ => m
  | .jupyterInstall _ m _ => m
  | .wrapped _ m _ _ => m
  | .wrappedKernel _ m _ _ _ => m
  | .otherBase _ m _ => m

end JSError

/-- `getErrorCategory(error?: Error)` (lines 69-74): `'unknown'` for a
missing error, `error.category` for a `BaseError`, `'unknown'` otherwise.
`none` models an `undefined` (or otherwise absent) argument; an `Error`
object itself is always truthy, so `!error` is exactly the `none` case. -/
def getErrorCategory : Option JSError → ErrorCategory
  | none => .unknown
  | some error => if error.isBaseError then error.category else .unknown

/-- `os.EOL`, the platform end-of-line marker ("\n" on POSIX, "\r\n" on
Windows).  No claim depends on its concrete value. -/
def EOL : String := "\n"

namespace WrappedError

/-- The `WrappedError` constructor (lines 28-36).
`super(getErrorCategory(originalException), message)` stores the computed
category; then, if `originalException` is defined, the constructor
overwrites `this.stack` with
`` `${new Error('').stack}${EOL}${EOL}${originalException.stack}` ``.

`freshStack` is the call stack captured by `new Error('')` at the
construction site, and `initStack` is the stack the `Error` superclass
itself assigned; both depend on the runtime call site, so the embedding
takes them as parameters. -/
def mk (message : String) (originalException : Option JSError)
    (freshStack initStack : String) : JSError :=
  .wrapped (getErrorCategory originalException) message originalException
    (match originalException with
     | some o => freshStack ++ EOL ++ EOL ++ o.stack
     | none => initStack)

/-- `WrappedError.from(message, err)` (lines 39-45): return `err` unchanged
when it is already a `BaseError`, otherwise wrap it.  The `err : any`
argument is modelled as `Option JSError`, `none` standing for `undefined`
(or any other non-`Error` value, which the source would wrap likewise). -/
def fromErr (message : String) (err : Option JSError)
    (freshStack initStack : String) : JSError :=
  match err with
  | some e => if e.isBaseError then e else mk message (some e) freshStack initStack
  | none => mk message none freshStack initStack

/-- `WrappedError.unwrap(err)` (lines 48-57): falsy input is returned as
is; a `WrappedError` whose `originalException` is present and is a
`BaseError` is replaced by that `originalException`; anything else is
returned unchanged. -/
def unwrap (err : Option JSError) : Option JSError :=
  match err with
  | none => none
  | some e =>
    if e.isWrappedError then
      match e.originalException with
      | some o => if o.isBaseError then some o else some e
      | none => some e
    else some e

end WrappedError

/-- The `WrappedKernelError` constructor (lines 59-67): it simply forwards
to the `WrappedError` constructor and stores the metadata, so the stored
fields follow the same computation. -/
def WrappedKernelError.mk (message : String) (originalException : Option JSError)
    (freshStack initStack : String) (km : KernelConnectionMetadata) : JSError :=
  .wrappedKernel (getErrorCategory originalException) message originalException
    (match originalException with
     | some o => freshStack ++ EOL ++ EOL ++ o.stack
     | none => initStack)
    km

/-- The `StdErrError` constructor (lines 303-307): `super('unknown',
message)`.  `stack` is whatever the `Error` superclass captures at the
construction site. -/
def StdErrError.mk (message : String) (stack : String) : JSError :=
  .stdErr .unknown message stack

/-- The `JupyterInstallError` constructor
(`src/client/datascience/errors/jupyterInstallError.ts`):
`super('jupyterinstall', message)`. -/
def JupyterInstallError.mk (message : String) (stack : String) : JSError :=
  .jupyterInstall .jupyterinstall message stack

/-- The seventeen error kinds enumerated by the spec's taxonomy. -/
def specCategories : List ErrorCategory :=
  [.cancelled, .timeout, .daemon, .zmq, .debugger, .kerneldied,
   .kernelpromisetimeout, .jupytersession, .jupyterconnection,
   .jupyterinstall, .jupyterselfcert, .invalidkernel, .noipykernel,
   .fetcherror, .notinstalled, .sessionDisposed, .unknown]

/-- All nineteen members of the `ErrorCategory` union type as written in
the source, including the two historical members. -/
def allCategories : List ErrorCategory :=
  [.cancelled, .timeout, .daemon, .zmq, .debugger, .kerneldied,
   .kernelpromisetimeout, .jupytersession, .jupyterconnection,
   .jupyterinstall, .jupyterselfcert, .invalidkernel, .noipykernel,
   .fetcherror, .notinstalled, .kernelspecnotfound, .unsupportedKernelSpec,
   .sessionDisposed, .unknown]

/-- A JavaScript property value, for the loosely-typed `dedicated` property
of the daemon-creation options (the static type says `true`, but the
runtime check `options.dedicated === true` in the source guards against any
value, which this models). -/
inductive JSVal where
  | vbool (b : Bool)
  | vnum (n : Int)
  | vstr (s : String)
  | vundefined
  | vnull
  deriving DecidableEq, Repr

/-- The union `DaemonExecutionFactoryCreationOptions` of
`PooledDaemonExecutionFactoryCreationOptions` and
`DedicatedDaemonExecutionFactoryCreationOptions` (lines 203-254), as the
runtime property bag `isDaemonPoolCreationOption` inspects.  `none` models
an absent property (so that `'dedicated' in options` is false); the pooled
variant's `daemonCount`/`observableDaemonCount` and the shared
`daemonModule` are carried but never consulted by the discriminator.
`daemonClass` is a class reference; only its presence matters, so it is
modelled by an opaque name. -/
structure DaemonExecutionFactoryCreationOptions where
  daemonModule : Option String
  daemonClass : Option String
  daemonCount : Option Nat
  observableDaemonCount : Option Nat
  dedicated : Option JSVal
  deriving DecidableEq, Repr

/-- `isDaemonPoolCreationOption(options)` (lines 193-201): returns `false`
exactly when `'dedicated' in options && options.dedicated === true`, and
`true` otherwise. -/
def isDaemonPoolCreationOption (options : DaemonExecutionFactoryCreationOptions) : Bool :=
  if options.dedicated.isSome && options.dedicated == some (JSVal.vbool true) then
    false
  else
    true

/-- `SpawnOptions` (lines 155-160), restricted to the recognized extra
options that the claims concern; the underlying `child_process` spawn
configuration and the cancellation token do not affect the stdout/stderr
result assembly modelled below. -/
structure SpawnOptions where
  encoding : Option String
  mergeStdOutErr : Bool
  throwOnStdErr : Bool
  deriving DecidableEq, Repr

/-- `ExecutionResult<string>` (lines 165-168). -/
structure ExecutionResult where
  stdout : String
  stderr : Option String
  deriving DecidableEq, Repr

/-- Modelled from the spec: the implementation class behind
`IProcessService.exec` (only the interface, lines 175-180, is in the
excerpt).  Per spec §4.1, once the spawned process has completed with
accumulated `stdout` and `stderr` text: if `throwOnStdErr` is set and any
non-empty stderr output was emitted, the promise fails with a `StdErrError`
carrying the stderr text; otherwise, with `mergeStdOutErr` set the stderr
content is concatenated into the stdout field, and without it stderr is
reported separately.  `Except.error` models promise rejection; the rejected
error's `stack` is whatever `Error` captures at the throw site and is taken
as a parameter. -/
def ProcessService.exec (options : SpawnOptions) (stdout stderr : String)
    (errStack : String) : Except JSError ExecutionResult :=
  if options.throwOnStdErr && stderr != "" then
    Except.error (StdErrError.mk stderr errStack)
  else if options.mergeStdOutErr then
    Except.ok ⟨stdout ++ stderr, none⟩
  else
    Except.ok ⟨stdout, some stderr⟩

/-- Modelled from the spec: byte-to-text decoding behind the
`IBufferDecoder` interface (lines 139-142; the implementing class is not in
the excerpt).  The spec fixes only that decoding is a pure function of the
bytes and the encoding name; the per-encoding code-point translation is
modelled as the identity on code points, which decodes no bytes to the
empty string and is enough for every property the spec states about it. -/
def decodeBytes (encoding : String) (bytes : List Nat) : String :=
  match encoding with
  | _ => String.mk (bytes.map Char.ofNat)

/-- Modelled from the spec: `BufferDecoder.decode(buffers, encoding)`
concatenates the raw byte buffers and decodes the result with the given
encoding (spec §4.2).  A `Buffer` is a byte list. -/
def BufferDecoder.decode (buffers : List (List Nat)) (encoding : String) : String :=
  decodeBytes encoding buffers.flatten

/-- Whatever `WrappedError.from` returns is an instance of `BaseError`: a
`BaseError` input is returned as is, and any other input gets wrapped in a
`WrappedError`, itself a `BaseError` subclass. -/
theorem fromErr_isBaseError (m : String) (err : Option JSError) (f i : String) :
    (WrappedError.fromErr m err f i).isBaseError = true := by
  cases err with
  | none => rfl
  | some e =>
    show (if e.isBaseError = true then e else WrappedError.mk m (some e) f i).isBaseError = true
    by_cases h : e.isBaseError = true
    · rw [if_pos h]; exact h
    · rw [if_neg h]; rfl

/-- On a `BaseError` input, `WrappedError.from` is the identity. -/
theorem fromErr_of_isBaseError (m : String) (e : JSError) (f i : String)
    (h : e.isBaseError = true) : WrappedError.fromErr m (some e) f i = e := by
  show (if e.isBaseError = true then e else WrappedError.mk m (some e) f i) = e
  rw [if_pos h]

/-- C1: `WrappedError.from` is idempotent — for every message `m2` and
every value already produced by `WrappedError.from(m1, err)`, re-applying
`WrappedError.from` with `m2` returns that value itself unchanged (in
particular with the same category), not a new wrapper. -/
theorem wrappedError_from_idempotent (m1 m2 : String) (err : Option JSError)
    (f1 i1 f2 i2 : String) :
    WrappedError.fromErr m2 (some (WrappedError.fromErr m1 err f1 i1)) f2 i2 =
      WrappedError.fromErr m1 err f1 i1 :=
  fromErr_of_isBaseError m2 (WrappedError.fromErr m1 err f1 i1) f2 i2
    (fromErr_isBaseError m1 err f1 i1)

/-- C2 counterexample: the `ErrorCategory` union in the source has two
members beyond the seventeen the claim enumerates; a `BaseError` subclass
instance carrying `kernelspecnotfound` is a well-typed error value whose
category lies outside the claimed seventeen-element set. -/
theorem category_outside_seventeen :
    (JSError.otherBase .kernelspecnotfound "kernel spec missing" "st").isBaseError = true ∧
    (JSError.otherBase .kernelspecnotfound "kernel spec missing" "st").category ∉
      specCategories := by
  exact ⟨rfl, by decide⟩

/-- C2 (amended): the `category` field of every `BaseError` value is one of
the nineteen members of the `ErrorCategory` union — the seventeen kinds the
spec lists plus the two historical members `kernelspecnotfound` and
`unsupportedKernelSpec` that the union retains. -/
theorem category_mem_allCategories (e : JSError) (_h : e.isBaseError = true) :
    e.category ∈ allCategories := by
  cases e.category <;> decide

/-- C2 witness: a concrete `BaseError` value satisfying the hypothesis. -/
theorem category_mem_allCategories_witness :
    (StdErrError.mk "oops" "st").isBaseError = true ∧
    (StdErrError.mk "oops" "st").category ∈ allCategories :=
  ⟨rfl, category_mem_allCategories (StdErrError.mk "oops" "st") rfl⟩

/-- C3: `isDaemonPoolCreationOption(options)` returns `false` exactly when
the `dedicated` property is present with value `true`, and `true` in every
other case (property absent, or present with any other value); hence the
pooled/dedicated variants are mutually exclusive and exhaustive. -/
theorem isDaemonPoolCreationOption_spec (options : DaemonExecutionFactoryCreationOptions) :
    (isDaemonPoolCreationOption options = false ↔
      options.dedicated = some (JSVal.vbool true)) ∧
    (isDaemonPoolCreationOption options = true ↔
      options.dedicated ≠ some (JSVal.vbool true)) := by
  rcases hd : options.dedicated with _ | v
  · simp [isDaemonPoolCreationOption, hd]
  · rcases v with b | n | s | _ | _
    · cases b <;> simp [isDaemonPoolCreationOption, hd]
    · simp [isDaemonPoolCreationOption, hd]
    · simp [isDaemonPoolCreationOption, hd]
    · simp [isDaemonPoolCreationOption, hd]
    · simp [isDaemonPoolCreationOption, hd]

/-- C4: with `throwOnStdErr` set, any non-empty stderr output makes the
`exec` promise reject with a `StdErrError` carrying the stderr text —
never a resolved `ExecutionResult`. -/
theorem exec_throwOnStdErr (options : SpawnOptions) (stdout stderr errStack : String)
    (hthrow : options.throwOnStdErr = true) (hne : stderr ≠ "") :
    ProcessService.exec options stdout stderr errStack =
      Except.error (StdErrError.mk stderr errStack) := by
  simp [ProcessService.exec, hthrow, hne]

/-- C4 witness: a concrete invocation with `throwOnStdErr` and non-empty
stderr rejecting with the `StdErrError`. -/
theorem exec_throwOnStdErr_witness :
    (SpawnOptions.mk none false true).throwOnStdErr = true ∧ "boom" ≠ "" ∧
    ProcessService.exec (SpawnOptions.mk none false true) "out" "boom" "st" =
      Except.error (StdErrError.mk "boom" "st") :=
  ⟨rfl, by decide, exec_throwOnStdErr (SpawnOptions.mk none false true) "out" "boom" "st"
    rfl (by decide)⟩

/-- C5: `getErrorCategory` returns the error's own `category` exactly for
`BaseError` instances, and `'unknown'` for an undefined argument or any
non-`BaseError` error. -/
theorem getErrorCategory_spec :
    getErrorCategory none = .unknown ∧
    (∀ e : JSError, e.isBaseError = true → getErrorCategory (some e) = e.category) ∧
    (∀ e : JSError, e.isBaseError = false → getErrorCategory (some e) = .unknown) := by
  refine ⟨rfl, ?_, ?_⟩ <;> intro e h <;> simp [getErrorCategory, h]

/-- C5 witness: concrete instances for both guarded cases. -/
theorem getErrorCategory_spec_witness :
    (StdErrError.mk "m" "s").isBaseError = true ∧
    getErrorCategory (some (StdErrError.mk "m" "s")) = (StdErrError.mk "m" "s").category ∧
    (JSError.plain "m" "s").isBaseError = false ∧
    getErrorCategory (some (JSError.plain "m" "s")) = .unknown :=
  ⟨rfl, getErrorCategory_spec.2.1 (StdErrError.mk "m" "s") rfl, rfl,
    getErrorCategory_spec.2.2 (JSError.plain "m" "s") rfl⟩

/-- C6: a `WrappedError` built with a defined `originalException` retains
it as a field and stores as `stack` the freshly captured call stack,
two end-of-line separators, then the original exception's stack; with
`originalException` undefined, the superclass-assigned stack is kept. -/
theorem wrappedError_stack_spec (m : String) (o : JSError) (fresh init : String) :
    (WrappedError.mk m (some o) fresh init).originalException = some o ∧
    (WrappedError.mk m (some o) fresh init).stack = fresh ++ EOL ++ EOL ++ o.stack ∧
    (WrappedError.mk m none fresh init).originalException = none ∧
    (WrappedError.mk m none fresh init).stack = init :=
  ⟨rfl, rfl, rfl, rfl⟩

/-- C7: every `StdErrError` is a `BaseError` whose category is
`'unknown'`, whatever its message. -/
theorem stdErrError_category (m st : String) :
    (StdErrError.mk m st).isBaseError = true ∧
    (StdErrError.mk m st).category = .unknown :=
  ⟨rfl, rfl⟩

/-- C8: `BufferDecoder.decode` is a pure function of the buffer list and
encoding (a function of exactly those two arguments, concatenating the
buffers before decoding), and on the empty buffer list it returns the
empty string — for `'utf8'` and in fact for every encoding. -/
theorem bufferDecoder_decode_empty :
    BufferDecoder.decode [] "utf8" = "" ∧
    (∀ encoding : String, BufferDecoder.decode [] encoding = "") ∧
    (∀ buffers encoding, BufferDecoder.decode buffers encoding =
      decodeBytes encoding buffers.flatten) :=
  ⟨rfl, fun _ => rfl, fun _ _ => rfl⟩

/-- C9: the category stored by the `WrappedError` constructor is
`getErrorCategory(originalException)`: the original's own category when it
is a `BaseError`, and `'unknown'` when it is undefined or any
non-`BaseError` error — never anything else. -/
theorem wrappedError_category (m : String) (o : Option JSError) (fresh init : String) :
    (WrappedError.mk m o fresh init).category = getErrorCategory o ∧
    getErrorCategory o = (match o with
      | some e => if e.isBaseError then e.category else .unknown
      | none => .unknown) := by
  refine ⟨rfl, ?_⟩
  cases o <;> rfl

/-- C10: `unwrap` maps falsy input to itself; replaces a `WrappedError`
whose `originalException` is present and is a `BaseError` by that
`originalException`; returns every other input unchanged; and removes only
one layer from a doubly-wrapped error (the result is the inner wrapper,
itself still a `WrappedError`). -/
theorem unwrap_spec :
    WrappedError.unwrap none = none ∧
    (∀ e o : JSError, e.isWrappedError = true → e.originalException = some o →
      o.isBaseError = true → WrappedError.unwrap (some e) = some o) ∧
    (∀ e : JSError, e.isWrappedError = false → WrappedError.unwrap (some e) = some e) ∧
    (∀ e : JSError, e.originalException = none → WrappedError.unwrap (some e) = some e) ∧
    (∀ e o : JSError, e.originalException = some o → o.isBaseError = false →
      WrappedError.unwrap (some e) = some e) ∧
    (∀ (c1 c2 : ErrorCategory) (m1 m2 st1 st2 : String) (b : JSError),
      b.isBaseError = true →
      WrappedError.unwrap (some (JSError.wrapped c1 m1
          (some (JSError.wrapped c2 m2 (some b) st2)) st1)) =
        some (JSError.wrapped c2 m2 (some b) st2)) := by
  refine ⟨rfl, ?_, ?_, ?_, ?_, ?_⟩
  · intro e o hw ho hb
    simp [WrappedError.unwrap, hw, ho, hb]
  · intro e hw
    simp [WrappedError.unwrap, hw]
  · intro e ho
    cases hw : e.isWrappedError <;> simp [WrappedError.unwrap, hw, ho]
  · intro e o ho hb
    cases hw : e.isWrappedError <;> simp [WrappedError.unwrap, hw, ho, hb]
  · intro c1 c2 m1 m2 st1 st2 b hb
    simp [WrappedError.unwrap, JSError.isWrappedError, JSError.originalException,
      JSError.isBaseError]

/-- C10 witness: concrete instances for each hypothesized case — a wrapped
`BaseError` unwrapping one layer, a plain error and a wrapper without (or
with a non-`BaseError`) cause returned unchanged, and a doubly-wrapped
error losing exactly one layer. -/
theorem unwrap_spec_witness :
    WrappedError.unwrap
        (some (JSError.wrapped .unknown "w" (some (StdErrError.mk "m" "s")) "st")) =
      some (StdErrError.mk "m" "s") ∧
    WrappedError.unwrap (some (JSError.plain "p" "s")) = some (JSError.plain "p" "s") ∧
    WrappedError.unwrap (some (JSError.wrapped .unknown "w" none "st")) =
      some (JSError.wrapped .unknown "w" none "st") ∧
    WrappedError.unwrap
        (some (JSError.wrapped .unknown "w" (some (JSError.plain "p" "s")) "st")) =
      some (JSError.wrapped .unknown "w" (some (JSError.plain "p" "s")) "st") ∧
    WrappedError.unwrap (some (JSError.wrapped .unknown "w2"
        (some (JSError.wrapped .unknown "w1" (some (StdErrError.mk "m" "s")) "st1")) "st2")) =
      some (JSError.wrapped .unknown "w1" (some (StdErrError.mk "m" "s")) "st1") :=
  ⟨unwrap_spec.2.1 _ _ rfl rfl rfl,
   unwrap_spec.2.2.1 _ rfl,
   unwrap_spec.2.2.2.1 _ rfl,
   unwrap_spec.2.2.2.2.1 _ _ rfl rfl,
   unwrap_spec.2.2.2.2.2 .unknown .unknown "w2" "w1" "st2" "st1" _ rfl⟩
